import Mathlib

/-
Verification development for the community-volunteering database project
(two near-duplicate deliverables: a CRUD Flask app over SQLite plus an
advanced-query module).  The Python data-access layer, validation
utilities and request handlers are shallowly embedded below: tables are
lists of rows, each fixed SQL statement becomes a pure function on a
database state, fallible storage access becomes explicit `Option` /
engine-outcome passing, and each Flask handler becomes a pure function
from its inputs to an outcome value.
-/

namespace CommunityConnect

/- ================= Python string primitives ================= -/

/-- Model of Python `s.split(sep)` for a one-character separator:
splits at every occurrence of `sep`, keeping empty segments, so the
result is always non-empty (`"".split(c) == ['']`). -/
def pySplit (sep : Char) : List Char → List (List Char)
  | [] => [[]]
  | c :: cs =>
    if c = sep then [] :: pySplit sep cs
    else
      match pySplit sep cs with
      | [] => [[c]]
      | h :: t => (c :: h) :: t

/-- Model of Python negative indexing `xs[-1]` on a non-empty list of
segments (a `pySplit` result is never empty, so the default is never
used). -/
def pyLast (xs : List (List Char)) : List Char :=
  xs.getLastD []

/-- Model of Python `s.replace(old, '')` for a one-character `old`:
every occurrence of the character is removed. -/
def pyReplaceDel (c : Char) (l : List Char) : List Char :=
  l.filter (fun a => a ≠ c)

/-- Model of Python `s.strip()`: leading and trailing whitespace
removed. -/
def pyStripList (l : List Char) : List Char :=
  ((l.dropWhile Char.isWhitespace).reverse.dropWhile Char.isWhitespace).reverse

/-- Model of Python `s.strip()` on `String`. -/
def pyStrip (s : String) : String :=
  ⟨pyStripList s.toList⟩

/-- Model of Python `s.isdigit()` restricted to ASCII text (the only
text the application compares against): true iff the string is
non-empty and every character is a decimal digit. -/
def pyIsdigit (l : List Char) : Bool :=
  !l.isEmpty && l.all Char.isDigit

/- ================= Validation utilities (database.py) ================= -/

/-- Embedding of `validate_email` (identical in both deliverables):
`'@' in email and '.' in email.split('@')[-1]`. -/
def validate_email (email : String) : Bool :=
  email.toList.contains '@' && (pyLast (pySplit '@' email.toList)).contains '.'

/-- Embedding of `validate_phone` (identical in both deliverables):
strip `'-'`, `' '`, `'('`, `')'` via chained `replace`, then require
`clean_phone.isdigit() and len(clean_phone) >= 10`. -/
def validate_phone (phone : String) : Bool :=
  let clean_phone :=
    pyReplaceDel ')' (pyReplaceDel '(' (pyReplaceDel ' ' (pyReplaceDel '-' phone.toList)))
  pyIsdigit clean_phone && decide (clean_phone.length ≥ 10)

/- ================= Facts about the primitives ================= -/

theorem pySplit_ne_nil (sep : Char) (l : List Char) : pySplit sep l ≠ [] := by
  induction l with
  | nil => simp [pySplit]
  | cons c cs ih =>
    simp only [pySplit]
    by_cases h : c = sep
    · simp [h]
    · simp only [h, if_false]
      cases hs : pySplit sep cs with
      | nil => simp
      | cons h' t => simp

theorem pySplit_not_mem {sep : Char} {l : List Char} (h : sep ∉ l) :
    pySplit sep l = [l] := by
  induction l with
  | nil => rfl
  | cons c cs ih =>
    have hc : c ≠ sep := fun he => h (he ▸ List.mem_cons_self c cs)
    have hcs : sep ∉ cs := fun hm => h (List.mem_cons_of_mem c hm)
    simp only [pySplit, hc, if_false, ih hcs]

theorem pySplit_length_ge_two {sep : Char} {l : List Char} (h : sep ∈ l) :
    2 ≤ (pySplit sep l).length := by
  induction l with
  | nil => cases h
  | cons c cs ih =>
    simp only [pySplit]
    by_cases hc : c = sep
    · simp only [hc, if_true, List.length_cons]
      have := List.length_pos.mpr (pySplit_ne_nil sep cs)
      omega
    · have hm : sep ∈ cs := by
        rcases List.mem_cons.mp h with h1 | h1
        · exact absurd h1.symm hc
        · exact h1
      simp only [hc, if_false]
      cases hs : pySplit sep cs with
      | nil => exact absurd hs (pySplit_ne_nil sep cs)
      | cons h' t =>
        have := ih hm
        rw [hs] at this
        simpa using this

theorem pyLast_cons_of_ne_nil {x : List Char} {xs : List (List Char)} (h : xs ≠ []) :
    pyLast (x :: xs) = pyLast xs := by
  cases xs with
  | nil => exact absurd rfl h
  | cons y ys => simp [pyLast, List.getLastD_cons]

/-- The last segment of a split at the last separator occurrence: if
`l = u ++ sep :: t` with no `sep` in `t`, the last `pySplit` segment is
exactly `t`. -/
theorem pyLast_pySplit_append {sep : Char} (u : List Char) {t : List Char}
    (ht : sep ∉ t) : pyLast (pySplit sep (u ++ sep :: t)) = t := by
  induction u with
  | nil =>
    have h1 : pySplit sep ([] ++ sep :: t) = [] :: pySplit sep t := by
      simp [pySplit]
    rw [h1, pyLast_cons_of_ne_nil (pySplit_ne_nil sep t), pySplit_not_mem ht]
    rfl
  | cons c u' ih =>
    rw [List.cons_append]
    by_cases hc : c = sep
    · have h1 : pySplit sep (c :: (u' ++ sep :: t)) = [] :: pySplit sep (u' ++ sep :: t) := by
        simp [pySplit, hc]
      rw [h1, pyLast_cons_of_ne_nil (pySplit_ne_nil sep _)]
      exact ih
    · cases hs : pySplit sep (u' ++ sep :: t) with
      | nil => exact absurd hs (pySplit_ne_nil sep _)
      | cons h' t' =>
        have h1 : pySplit sep (c :: (u' ++ sep :: t)) = (c :: h') :: t' := by
          simp only [pySplit, hc, if_false, hs]
        have hmem : sep ∈ u' ++ sep :: t := by simp
        have hlen : 2 ≤ (pySplit sep (u' ++ sep :: t)).length :=
          pySplit_length_ge_two hmem
        rw [hs] at hlen
        have ht' : t' ≠ [] := by
          intro he
          rw [he] at hlen
          simp at hlen
        rw [h1, pyLast_cons_of_ne_nil ht']
        have h2 := ih
        rw [hs, pyLast_cons_of_ne_nil ht'] at h2
        exact h2

/-- Decomposition at the last occurrence of a character. -/
theorem exists_split_at_last {sep : Char} {l : List Char} (h : sep ∈ l) :
    ∃ u t, l = u ++ sep :: t ∧ sep ∉ t := by
  induction l with
  | nil => cases h
  | cons c cs ih =>
    by_cases hm : sep ∈ cs
    · obtain ⟨u, t, he, hn⟩ := ih hm
      exact ⟨c :: u, t, by simp [he], hn⟩
    · have hc : c = sep := by
        rcases List.mem_cons.mp h with h1 | h1
        · exact h1.symm
        · exact absurd h1 hm
      exact ⟨[], cs, by simp [hc], hm⟩

/- ================= C2 / C6: validation-utility claims ================= -/

/-- The separator characters that `validate_phone` strips, as the spec
lists them. -/
def phoneSeparators : List Char := ['-', ' ', '(', ')']

theorem clean_phone_eq_filter (l : List Char) :
    pyReplaceDel ')' (pyReplaceDel '(' (pyReplaceDel ' ' (pyReplaceDel '-' l))) =
      l.filter (fun c => decide (c ∉ phoneSeparators)) := by
  simp only [pyReplaceDel, List.filter_filter]
  apply List.filter_congr
  intro c _
  by_cases h1 : c = '-' <;> by_cases h2 : c = ' ' <;>
    by_cases h3 : c = '(' <;> by_cases h4 : c = ')' <;>
    simp [phoneSeparators, h1, h2, h3, h4]

/-- C6: `validate_email(s)` is true iff `s` contains `'@'` and the
substring after the last `'@'` contains `'.'`; with the spec's three
concrete examples. -/
theorem validate_email_iff_dot_after_last_at :
    (∀ s : String, validate_email s = true ↔
      ('@' ∈ s.toList ∧ ∃ u t, s.toList = u ++ '@' :: t ∧ '@' ∉ t ∧ '.' ∈ t)) ∧
    validate_email "a@b.com" = true ∧
    validate_email "abc" = false ∧
    validate_email "a@b" = false := by
  refine ⟨fun s => ?_, by decide, by decide, by decide⟩
  constructor
  · intro h
    rw [validate_email, Bool.and_eq_true] at h
    obtain ⟨h1, h2⟩ := h
    have hm : '@' ∈ s.toList := by simpa using h1
    obtain ⟨u, t, he, hn⟩ := exists_split_at_last hm
    refine ⟨hm, u, t, he, hn, ?_⟩
    rw [he, pyLast_pySplit_append u hn] at h2
    simpa using h2
  · rintro ⟨hm, u, t, he, hn, hd⟩
    rw [validate_email, Bool.and_eq_true]
    constructor
    · simpa using hm
    · rw [he, pyLast_pySplit_append u hn]
      simpa using hd

/-- C2: `validate_phone(s)` is true iff the string with every `'-'`,
`' '`, `'('`, `')'` deleted is non-empty, all decimal digits, and of
length at least 10; with the spec's three concrete examples. -/
theorem validate_phone_iff_digits_ge_ten :
    (∀ s : String,
      validate_phone s = true ↔
        (s.toList.filter (fun c => decide (c ∉ phoneSeparators)) ≠ [] ∧
         (∀ c ∈ s.toList.filter (fun c => decide (c ∉ phoneSeparators)), c.isDigit = true) ∧
         10 ≤ (s.toList.filter (fun c => decide (c ∉ phoneSeparators))).length)) ∧
    validate_phone "0412-345-678" = true ∧
    validate_phone "12345" = false ∧
    validate_phone "04-12-AB-CD" = false := by
  refine ⟨fun s => ?_, by decide, by decide, by decide⟩
  rw [validate_phone]
  simp only [clean_phone_eq_filter, pyIsdigit, Bool.and_eq_true, Bool.not_eq_eq_eq_not,
    Bool.not_true, List.isEmpty_eq_false, List.all_eq_true, decide_eq_true_eq]
  tauto

/- ================= Relational schema (row types and database state) ================= -/

/-- Row of the VOLUNTEER table (columns as selected by the queries). -/
structure VolunteerRow where
  volunteer_id : Nat
  first_name : String
  last_name : String
  date_of_birth : String
  email : String
  phone : String
  address : String
  registration_date : String
deriving Repr, DecidableEq

/-- Row of the ORGANISATION table. -/
structure OrganisationRow where
  org_id : Nat
  org_name : String
  contact_email : String
  phone : String
  address : String
  org_type : String
  description : String
deriving Repr, DecidableEq

/-- Row of the EVENT table.  Dates are modelled as integral day
numbers (the queries only subtract whole dates), capacity as an
integer column. -/
structure EventRow where
  event_id : Nat
  event_name : String
  description : String
  start_date : Int
  end_date : Int
  location : String
  max_volunteers : Int
  org_id : Nat
deriving Repr, DecidableEq

/-- Row of the VOLUNTEER_EVENT association table. -/
structure VolunteerEventRow where
  volunteer_id : Nat
  event_id : Nat
  registration_date : String
  attendance_status : String
deriving Repr, DecidableEq

/-- Row of the SKILL table. -/
structure SkillRow where
  skill_id : Nat
  skill_name : String
  skill_description : String
  skill_category : String
deriving Repr, DecidableEq

/-- Row of the VOLUNTEER_SKILL association table. -/
structure VolunteerSkillRow where
  volunteer_id : Nat
  skill_id : Nat
  proficiency_level : Nat
  years_experience : Int
deriving Repr, DecidableEq

/-- A database state: the tables the operations touch, each a list of
rows (EVENT_SKILL is referenced by no query and carries no data the
operations read). -/
structure DB where
  volunteers : List VolunteerRow
  organisations : List OrganisationRow
  events : List EventRow
  volunteer_events : List VolunteerEventRow
  skills : List SkillRow
  volunteer_skills : List VolunteerSkillRow
deriving Repr, DecidableEq

/- ================= ORDER BY machinery ================= -/

/-- Byte-wise (BINARY-collation) text comparison used by SQLite
`ORDER BY` on TEXT columns, on the character list of a string. -/
def charListLe : List Char → List Char → Bool
  | [], _ => true
  | _ :: _, [] => false
  | a :: as, b :: bs => if a = b then charListLe as bs else decide (a < b)

theorem charListLe_total (a b : List Char) : charListLe a b = true ∨ charListLe b a = true := by
  induction a generalizing b with
  | nil => left; rfl
  | cons x xs ih =>
    cases b with
    | nil => right; rfl
    | cons y ys =>
      by_cases hxy : x = y
      · rcases ih ys with h | h
        · left; simp [charListLe, hxy, h]
        · right; simp [charListLe, hxy.symm, h]
      · rcases lt_or_gt_of_ne hxy with h | h
        · left; simp [charListLe, hxy, h]
        · right
          have hyx : y ≠ x := fun he => hxy he.symm
          simp [charListLe, hyx, h]

theorem charListLe_trans {a b c : List Char}
    (h1 : charListLe a b = true) (h2 : charListLe b c = true) : charListLe a c = true := by
  induction a generalizing b c with
  | nil => rfl
  | cons x xs ih =>
    cases b with
    | nil => simp [charListLe] at h1
    | cons y ys =>
      cases c with
      | nil => simp [charListLe] at h2
      | cons z zs =>
        by_cases hxy : x = y <;> by_cases hyz : y = z
        · subst hxy; subst hyz
          simp only [charListLe, if_pos rfl] at h1 h2 ⊢
          exact ih h1 h2
        · subst hxy
          simp only [charListLe, if_pos rfl] at h1
          simpa [charListLe, hyz] using h2
        · subst hyz
          simpa [charListLe, hxy] using h1
        · simp only [charListLe, hxy, if_false, decide_eq_true_eq] at h1
          simp only [charListLe, hyz, if_false, decide_eq_true_eq] at h2
          have hxz : x < z := lt_trans h1 h2
          have hne : x ≠ z := ne_of_lt hxz
          simp [charListLe, hne, hxz]

theorem charListLe_antisymm {a b : List Char}
    (h1 : charListLe a b = true) (h2 : charListLe b a = true) : a = b := by
  induction a generalizing b with
  | nil =>
    cases b with
    | nil => rfl
    | cons y ys => simp [charListLe] at h2
  | cons x xs ih =>
    cases b with
    | nil => simp [charListLe] at h1
    | cons y ys =>
      by_cases hxy : x = y
      · subst hxy
        simp only [charListLe, if_pos rfl] at h1 h2
        rw [ih h1 h2]
      · have hyx : y ≠ x := fun he => hxy he.symm
        simp only [charListLe, hxy, if_false, decide_eq_true_eq] at h1
        simp only [charListLe, hyx, if_false, decide_eq_true_eq] at h2
        exact absurd h2 (not_lt_of_gt h1)

/-- Two-key lexicographic comparison, as SQLite `ORDER BY k1, k2`
evaluates it for distinct first keys and falls through to the second
key on ties. -/
def lexLe {β γ : Type} [DecidableEq β] (le1 : β → β → Bool) (le2 : γ → γ → Bool)
    (p q : β × γ) : Bool :=
  if p.1 = q.1 then le2 p.2 q.2 else le1 p.1 q.1

theorem lexLe_total {β γ : Type} [DecidableEq β] {le1 : β → β → Bool} {le2 : γ → γ → Bool}
    (t1 : ∀ a b, le1 a b = true ∨ le1 b a = true)
    (t2 : ∀ a b, le2 a b = true ∨ le2 b a = true) (p q : β × γ) :
    lexLe le1 le2 p q = true ∨ lexLe le1 le2 q p = true := by
  by_cases h : p.1 = q.1
  · rcases t2 p.2 q.2 with h2 | h2
    · left; simp [lexLe, h, h2]
    · right; simp [lexLe, h.symm, h2]
  · have h' : q.1 ≠ p.1 := fun he => h he.symm
    rcases t1 p.1 q.1 with h1 | h1
    · left; simp [lexLe, h, h1]
    · right; simp [lexLe, h', h1]

theorem lexLe_trans {β γ : Type} [DecidableEq β] {le1 : β → β → Bool} {le2 : γ → γ → Bool}
    (tr1 : ∀ a b c, le1 a b = true → le1 b c = true → le1 a c = true)
    (as1 : ∀ a b, le1 a b = true → le1 b a = true → a = b)
    (tr2 : ∀ a b c, le2 a b = true → le2 b c = true → le2 a c = true)
    {p q r : β × γ} (h1 : lexLe le1 le2 p q = true) (h2 : lexLe le1 le2 q r = true) :
    lexLe le1 le2 p r = true := by
  by_cases hpq : p.1 = q.1 <;> by_cases hqr : q.1 = r.1
  · have hpr : p.1 = r.1 := hpq.trans hqr
    simp only [lexLe, hpq, hqr, if_pos rfl, hpr] at h1 h2 ⊢
    exact tr2 _ _ _ h1 h2
  · have hpr : p.1 ≠ r.1 := fun he => hqr (hpq ▸ he)
    simp only [lexLe, hqr, if_false, hpr] at h2 ⊢
    rw [hpq]
    exact h2
  · have hpr : p.1 ≠ r.1 := fun he => hpq (he.trans hqr.symm)
    simp only [lexLe, hpq, if_false, hpr] at h1 ⊢
    rw [← hqr]
    exact h1
  · simp only [lexLe, hpq, hqr, if_false] at h1 h2
    by_cases hpr : p.1 = r.1
    · exfalso
      rw [hpr] at h1
      exact hpq (hpr.trans (as1 _ _ h2 h1).symm)
    · simp only [lexLe, hpr, if_false]
      exact tr1 _ _ _ h1 h2

/- ================= Data-access query semantics ================= -/

/-- Sort key of `get_all_volunteers`: `ORDER BY last_name, first_name`
under BINARY collation. -/
def volunteerLe (a b : VolunteerRow) : Bool :=
  lexLe charListLe charListLe
    (a.last_name.toList, a.first_name.toList) (b.last_name.toList, b.first_name.toList)

/-- The `ORDER BY last_name, first_name` relation as a proposition. -/
def volunteerOrder : VolunteerRow → VolunteerRow → Prop :=
  fun a b => volunteerLe a b = true

instance : DecidableRel volunteerOrder :=
  fun a b => inferInstanceAs (Decidable (volunteerLe a b = true))

instance : IsTotal VolunteerRow volunteerOrder :=
  ⟨fun _ _ => lexLe_total charListLe_total charListLe_total _ _⟩

instance : IsTrans VolunteerRow volunteerOrder :=
  ⟨fun a b c h1 h2 => by
    have h1' : volunteerLe a b = true := h1
    have h2' : volunteerLe b c = true := h2
    show volunteerLe a c = true
    unfold volunteerLe at h1' h2' ⊢
    exact @lexLe_trans (List Char) (List Char) _ charListLe charListLe
      (fun _ _ _ ha hb => charListLe_trans ha hb)
      (fun _ _ ha hb => charListLe_antisymm ha hb)
      (fun _ _ _ ha hb => charListLe_trans ha hb) _ _ _ h1' h2'⟩

/-- Embedding of `get_all_volunteers`: `SELECT` every VOLUNTEER row,
`ORDER BY last_name, first_name`. -/
def get_all_volunteers_rows (db : DB) : List VolunteerRow :=
  List.insertionSort volunteerOrder db.volunteers

/-- Embedding of `get_volunteer_by_id`: `SELECT ... WHERE volunteer_id = ?`,
then Python `results[0] if results else None`. -/
def get_volunteer_by_id_row (db : DB) (volunteer_id : Nat) : Option VolunteerRow :=
  (db.volunteers.filter (fun v => v.volunteer_id == volunteer_id)).head?

/-- Embedding of `delete_event`: `DELETE FROM EVENT WHERE event_id = ?`;
the second component is the statement's affected-row count. -/
def delete_event (db : DB) (event_id : Nat) : DB × Nat :=
  ({ db with events := db.events.filter (fun e => !(e.event_id == event_id)) },
   db.events.length - (db.events.filter (fun e => !(e.event_id == event_id))).length)

/-- The `COUNT(ve.volunteer_id)` aggregate of `get_event_statistics`
for one event group: `VOLUNTEER_EVENT` rows of that event (the column
is non-null, so the count is the group size; a `LEFT JOIN` with no
match contributes a null and hence zero). -/
def eventRegistrantCount (db : DB) (e : EventRow) : Nat :=
  (db.volunteer_events.filter (fun ve => ve.event_id == e.event_id)).length

/-- The CASE expression of `get_event_statistics`, in the source's
branch order: `'Full'` when count ≥ max_volunteers, else `'Partial'`
when count > 0, else `'Empty'`. -/
def eventStatStatus (cnt : Nat) (maxv : Int) : String :=
  if (cnt : Int) ≥ maxv then "Full" else if 0 < cnt then "Partial" else "Empty"

/-- Output row of `get_event_statistics`. -/
structure EventStatRow where
  event_name : String
  org_name : String
  volunteer_count : Nat
  max_volunteers : Int
  start_date : Int
  end_date : Int
  duration_days : Int
  status : String
deriving Repr, DecidableEq

/-- Sort key of `get_event_statistics`: `ORDER BY volunteer_count DESC`. -/
def statLe (a b : EventStatRow) : Bool :=
  decide (b.volunteer_count ≤ a.volunteer_count)

/-- The `ORDER BY volunteer_count DESC` relation as a proposition. -/
def statOrder : EventStatRow → EventStatRow → Prop :=
  fun a b => statLe a b = true

instance : DecidableRel statOrder :=
  fun a b => inferInstanceAs (Decidable (statLe a b = true))

instance : IsTotal EventStatRow statOrder :=
  ⟨fun a b => by
    rcases Nat.le_total b.volunteer_count a.volunteer_count with h | h
    · left; simpa [statOrder, statLe] using h
    · right; simpa [statOrder, statLe] using h⟩

instance : IsTrans EventStatRow statOrder :=
  ⟨fun a b c h1 h2 => by
    simp only [statOrder, statLe, decide_eq_true_eq] at h1 h2 ⊢
    omega⟩

/-- Embedding of `get_event_statistics`: every EVENT inner-joined to
its ORGANISATION (`org_id` is the organisation's primary key, so the
join partner is the unique matching row), grouped per event with the
registrant count, the whole-day duration `end_date - start_date`, and
the CASE status; ordered by registrant count descending. -/
def get_event_statistics_rows (db : DB) : List EventStatRow :=
  List.insertionSort statOrder
    (db.events.filterMap (fun e =>
      (db.organisations.find? (fun o => o.org_id == e.org_id)).map (fun o =>
        { event_name := e.event_name
          org_name := o.org_name
          volunteer_count := eventRegistrantCount db e
          max_volunteers := e.max_volunteers
          start_date := e.start_date
          end_date := e.end_date
          duration_days := e.end_date - e.start_date
          status := eventStatStatus (eventRegistrantCount db e) e.max_volunteers })))

/-- Output row of `get_skill_distribution`.  `AVG(vs.years_experience)`
is the exact rational `sum_experience / volunteer_count`; the row keeps
the integral sum, which together with the count determines the average
exactly. -/
structure SkillDistRow where
  skill_name : String
  skill_category : String
  volunteer_count : Nat
  sum_experience : Int
  max_experience : Option Int
  min_experience : Option Int
deriving Repr, DecidableEq

/-- Sort key of `get_skill_distribution`: `ORDER BY volunteer_count
DESC, skill_category`. -/
def skillDistLe (a b : SkillDistRow) : Bool :=
  lexLe (fun m n : Nat => decide (n ≤ m)) charListLe
    (a.volunteer_count, a.skill_category.toList) (b.volunteer_count, b.skill_category.toList)

/-- The `ORDER BY volunteer_count DESC, skill_category` relation as a
proposition. -/
def skillDistOrder : SkillDistRow → SkillDistRow → Prop :=
  fun a b => skillDistLe a b = true

instance : DecidableRel skillDistOrder :=
  fun a b => inferInstanceAs (Decidable (skillDistLe a b = true))

/-- Embedding of `get_skill_distribution`: SKILL left-joined to
VOLUNTEER_SKILL, grouped per skill with count/sum/max/min of
`years_experience`, kept only when `HAVING COUNT(vs.volunteer_id) > 0`
holds, ordered by count descending then category. -/
def get_skill_distribution_rows (db : DB) : List SkillDistRow :=
  List.insertionSort skillDistOrder
    ((db.skills.map (fun s =>
      ({ skill_name := s.skill_name,
         skill_category := s.skill_category,
         volunteer_count :=
           (db.volunteer_skills.filter (fun vs => vs.skill_id == s.skill_id)).length,
         sum_experience :=
           ((db.volunteer_skills.filter (fun vs => vs.skill_id == s.skill_id)).map
             (fun vs => vs.years_experience)).sum,
         max_experience :=
           ((db.volunteer_skills.filter (fun vs => vs.skill_id == s.skill_id)).map
             (fun vs => vs.years_experience)).max?,
         min_experience :=
           ((db.volunteer_skills.filter (fun vs => vs.skill_id == s.skill_id)).map
             (fun vs => vs.years_experience)).min? } : SkillDistRow))).filter
      (fun g => decide (0 < g.volunteer_count)))

/- ================= C9: volunteer listing order ================= -/

/-- C9: the sequence returned by `get_all_volunteers` is sorted
ascending by the key (last_name, first_name), is exactly the VOLUNTEER
table's rows, and repeated evaluation over unchanged data returns the
same sequence (the embedding is a pure function of the state). -/
theorem get_all_volunteers_sorted_stable (db : DB) :
    List.Sorted volunteerOrder (get_all_volunteers_rows db) ∧
    (get_all_volunteers_rows db).Perm db.volunteers ∧
    get_all_volunteers_rows db = get_all_volunteers_rows db :=
  ⟨List.sorted_insertionSort volunteerOrder db.volunteers,
   List.perm_insertionSort volunteerOrder db.volunteers, rfl⟩

/- ================= C1: event statistics ================= -/

/-- Database with one organisation and one zero-capacity event and no
registrations: the CASE branch order makes its status `'Full'`, not
`'Empty'`. -/
def eventStatsCexDB : DB :=
  { volunteers := [],
    organisations := [{ org_id := 1, org_name := "Helping Hands", contact_email := "",
                        phone := "", address := "", org_type := "", description := "" }],
    events := [{ event_id := 1, event_name := "Cleanup", description := "", start_date := 0,
                 end_date := 1, location := "", max_volunteers := 0, org_id := 1 }],
    volunteer_events := [], skills := [], volunteer_skills := [] }

/-- C1 counterexample: with max_volunteers = 0 and zero registrations,
the returned status is not `"Empty"` (the `count >= max_volunteers`
CASE branch fires first and yields `"Full"`), refuting the claim's
unconditional `count = 0 → "Empty"` reading. -/
theorem get_event_statistics_empty_label_fails :
    ¬ ∀ r ∈ get_event_statistics_rows eventStatsCexDB,
        (r.volunteer_count = 0 → r.status = "Empty") := by decide

/-- C1 (amended): every row of `get_event_statistics` carries status
`"Full"` when count ≥ max_volunteers, `"Partial"` when 0 < count <
max_volunteers, and `"Empty"` when count = 0 < max_volunteers (the
CASE branches apply in order, so `"Full"` wins when both count = 0 and
max_volunteers ≤ 0); and the returned sequence is ordered by
registrant count descending. -/
theorem get_event_statistics_status_and_order (db : DB) (r : EventStatRow)
    (hr : r ∈ get_event_statistics_rows db) :
    ((r.volunteer_count : Int) ≥ r.max_volunteers → r.status = "Full") ∧
    (0 < r.volunteer_count → (r.volunteer_count : Int) < r.max_volunteers →
      r.status = "Partial") ∧
    (r.volunteer_count = 0 → (0 : Int) < r.max_volunteers → r.status = "Empty") ∧
    List.Sorted statOrder (get_event_statistics_rows db) := by
  have hsorted : List.Sorted statOrder (get_event_statistics_rows db) :=
    List.sorted_insertionSort statOrder _
  rw [get_event_statistics_rows] at hr
  have hr' := (List.perm_insertionSort statOrder _).mem_iff.mp hr
  obtain ⟨e, _, hmap⟩ := List.mem_filterMap.mp hr'
  obtain ⟨o, _, heq⟩ := Option.map_eq_some'.mp hmap
  subst heq
  refine ⟨?_, ?_, ?_, hsorted⟩
  · show (eventRegistrantCount db e : Int) ≥ e.max_volunteers →
      eventStatStatus (eventRegistrantCount db e) e.max_volunteers = "Full"
    intro hge
    rw [eventStatStatus, if_pos hge]
  · show 0 < eventRegistrantCount db e → (eventRegistrantCount db e : Int) < e.max_volunteers →
      eventStatStatus (eventRegistrantCount db e) e.max_volunteers = "Partial"
    intro hpos hlt
    rw [eventStatStatus, if_neg (not_le.mpr hlt), if_pos hpos]
  · show eventRegistrantCount db e = 0 → (0 : Int) < e.max_volunteers →
      eventStatStatus (eventRegistrantCount db e) e.max_volunteers = "Empty"
    intro hz hm
    have hnge : ¬ ((eventRegistrantCount db e : Int) ≥ e.max_volunteers) := by
      rw [hz]
      simpa using hm
    rw [eventStatStatus, if_neg hnge, if_neg (by omega)]

/-- Database for the C1 witness: one event of capacity 2 with one
registration, yielding a `"Partial"` row. -/
def eventStatsWitnessDB : DB :=
  { volunteers := [],
    organisations := [{ org_id := 1, org_name := "Helping Hands", contact_email := "",
                        phone := "", address := "", org_type := "", description := "" }],
    events := [{ event_id := 1, event_name := "Cleanup", description := "", start_date := 0,
                 end_date := 3, location := "", max_volunteers := 2, org_id := 1 }],
    volunteer_events := [{ volunteer_id := 7, event_id := 1, registration_date := "",
                           attendance_status := "registered" }],
    skills := [], volunteer_skills := [] }

/-- The row `get_event_statistics` produces for `eventStatsWitnessDB`. -/
def eventStatsWitnessRow : EventStatRow :=
  { event_name := "Cleanup", org_name := "Helping Hands", volunteer_count := 1,
    max_volunteers := 2, start_date := 0, end_date := 3, duration_days := 3,
    status := "Partial" }

theorem get_event_statistics_status_witness :
    eventStatsWitnessRow.status = "Partial" ∧
    List.Sorted statOrder (get_event_statistics_rows eventStatsWitnessDB) := by
  have h := get_event_statistics_status_and_order eventStatsWitnessDB eventStatsWitnessRow
    (by decide)
  exact ⟨h.2.1 (by decide) (by decide), h.2.2.2⟩

/- ================= C4: skill distribution ================= -/

/-- C4: `get_skill_distribution` never returns a skill row with zero
associated volunteers — the `HAVING COUNT(vs.volunteer_id) > 0` filter
guarantees every returned count is at least one. -/
theorem get_skill_distribution_no_zero_counts (db : DB) (r : SkillDistRow)
    (hr : r ∈ get_skill_distribution_rows db) : 1 ≤ r.volunteer_count := by
  rw [get_skill_distribution_rows] at hr
  have hr' := (List.perm_insertionSort skillDistOrder _).mem_iff.mp hr
  have hp := (List.mem_filter.mp hr').2
  simpa using hp

/-- Database for the C4 witness: one skill held by one volunteer. -/
def skillWitnessDB : DB :=
  { volunteers := [], organisations := [], events := [], volunteer_events := [],
    skills := [{ skill_id := 1, skill_name := "First Aid", skill_description := "",
                 skill_category := "Medical" }],
    volunteer_skills := [{ volunteer_id := 1, skill_id := 1, proficiency_level := 3,
                           years_experience := 5 }] }

/-- The row `get_skill_distribution` produces for `skillWitnessDB`. -/
def skillWitnessRow : SkillDistRow :=
  { skill_name := "First Aid", skill_category := "Medical", volunteer_count := 1,
    sum_experience := 5, max_experience := some 5, min_experience := some 5 }

theorem get_skill_distribution_no_zero_counts_witness :
    1 ≤ skillWitnessRow.volunteer_count :=
  get_skill_distribution_no_zero_counts skillWitnessDB skillWitnessRow (by decide)

/- ================= C5: event deletion frame ================= -/

/-- C5: when EVENT holds exactly one row with the given id,
`delete_event` reports one affected row, removes exactly that row
(every other event survives, nothing else enters), leaves all five
other tables — including the event's VOLUNTEER_EVENT association rows
— untouched, and deleting the same id again reports zero affected rows
and changes nothing. -/
theorem delete_event_frame (db : DB) (eid : Nat)
    (h : (db.events.filter (fun e => e.event_id == eid)).length = 1) :
    (delete_event db eid).2 = 1 ∧
    (∀ e ∈ db.events, e.event_id ≠ eid → e ∈ (delete_event db eid).1.events) ∧
    (∀ e ∈ (delete_event db eid).1.events, e ∈ db.events ∧ e.event_id ≠ eid) ∧
    (delete_event db eid).1.events.length + 1 = db.events.length ∧
    (delete_event db eid).1.volunteers = db.volunteers ∧
    (delete_event db eid).1.organisations = db.organisations ∧
    (delete_event db eid).1.volunteer_events = db.volunteer_events ∧
    (delete_event db eid).1.skills = db.skills ∧
    (delete_event db eid).1.volunteer_skills = db.volunteer_skills ∧
    (delete_event (delete_event db eid).1 eid).2 = 0 ∧
    (delete_event (delete_event db eid).1 eid).1 = (delete_event db eid).1 := by
  have hsplit := (List.filter_append_perm (fun e => e.event_id == eid) db.events).length_eq
  rw [List.length_append] at hsplit
  have hidem : (db.events.filter (fun e => !(e.event_id == eid))).filter
      (fun e => !(e.event_id == eid)) = db.events.filter (fun e => !(e.event_id == eid)) :=
    List.filter_eq_self.mpr (fun a ha => (List.mem_filter.mp ha).2)
  simp only [delete_event]
  refine ⟨by omega, ?_, ?_, by omega, trivial, trivial, trivial, trivial, trivial, ?_, ?_⟩
  · intro e he hne
    exact List.mem_filter.mpr ⟨he, by simp [hne]⟩
  · intro e he
    have hm := List.mem_filter.mp he
    refine ⟨hm.1, ?_⟩
    simpa using hm.2
  · rw [hidem]
    omega
  · rw [hidem]

/-- Database for the C5 witness: two events, one with a registration. -/
def deleteWitnessDB : DB :=
  { volunteers := [],
    organisations := [{ org_id := 1, org_name := "Helping Hands", contact_email := "",
                        phone := "", address := "", org_type := "", description := "" }],
    events := [{ event_id := 1, event_name := "Cleanup", description := "", start_date := 0,
                 end_date := 1, location := "", max_volunteers := 5, org_id := 1 },
               { event_id := 2, event_name := "Bake Sale", description := "", start_date := 2,
                 end_date := 2, location := "", max_volunteers := 3, org_id := 1 }],
    volunteer_events := [{ volunteer_id := 7, event_id := 1, registration_date := "",
                           attendance_status := "registered" }],
    skills := [], volunteer_skills := [] }

theorem delete_event_frame_witness :
    (delete_event deleteWitnessDB 1).2 = 1 ∧
    (delete_event deleteWitnessDB 1).1.volunteer_events = deleteWitnessDB.volunteer_events ∧
    (delete_event (delete_event deleteWitnessDB 1).1 1).2 = 0 := by
  obtain ⟨h1, _, _, _, _, _, hve, _, _, h0, _⟩ :=
    delete_event_frame deleteWitnessDB 1 (by decide)
  exact ⟨h1, hve, h0⟩

/- ================= Storage-fault layer (C8, C10) ================= -/

/-- Outcome the SQLite engine hands back for one statement: a value,
or a raised `sqlite3.Error` with its message. -/
inductive EngineResult (α : Type) where
  | ok (value : α)
  | err (msg : String)
deriving Repr, DecidableEq

/-- Embedding of `execute_query`: `connOk` models `get_db_connection()`
handing back a connection (`true`) or `None` (`false`); the engine
outcome models `cursor.execute`/fetch returning (`ok`) or raising a
`sqlite3.Error` (`err`), which the `except` clause turns into the
`None` sentinel. -/
def execute_query {α : Type} (connOk : Bool) (engine : EngineResult α) : Option α :=
  if connOk = false then none
  else
    match engine with
    | .ok v => some v
    | .err _ => none

/-- Embedding of `create_volunteer`'s own connection/try/except path:
the ok value is `cursor.lastrowid`. -/
def create_volunteer_res (connOk : Bool) (engine : EngineResult Nat) : Option Nat :=
  if connOk = false then none
  else
    match engine with
    | .ok volunteer_id => some volunteer_id
    | .err _ => none

/-- `get_all_volunteers` is `execute_query(query, fetch=True)`. -/
def get_all_volunteers_res (connOk : Bool) (engine : EngineResult (List VolunteerRow)) :
    Option (List VolunteerRow) :=
  execute_query connOk engine

/-- `get_volunteer_by_id` post-processes the fetched rows with
`results[0] if results else None`. -/
def get_volunteer_by_id_res (connOk : Bool) (engine : EngineResult (List VolunteerRow)) :
    Option VolunteerRow :=
  match execute_query connOk engine with
  | some results => results.head?
  | none => none

/-- `update_volunteer_phone` is `execute_query(query, params)`
returning an affected-row count. -/
def update_volunteer_phone_res (connOk : Bool) (engine : EngineResult Nat) : Option Nat :=
  execute_query connOk engine

/-- `delete_event` is `execute_query(query, params)` returning an
affected-row count. -/
def delete_event_res (connOk : Bool) (engine : EngineResult Nat) : Option Nat :=
  execute_query connOk engine

/-- C8: every data-access operation maps every storage fault — failed
connection acquisition or a raised `sqlite3.Error` — to the `None`
sentinel instead of propagating the exception. -/
theorem storage_faults_become_none (msg : String) (connOk : Bool)
    (engineNat : EngineResult Nat) (engineVol : EngineResult (List VolunteerRow)) :
    execute_query connOk (EngineResult.err msg : EngineResult (List VolunteerRow)) = none ∧
    execute_query connOk (EngineResult.err msg : EngineResult Nat) = none ∧
    create_volunteer_res connOk (.err msg) = none ∧
    get_all_volunteers_res connOk (.err msg) = none ∧
    get_volunteer_by_id_res connOk (.err msg) = none ∧
    update_volunteer_phone_res connOk (.err msg) = none ∧
    delete_event_res connOk (.err msg) = none ∧
    execute_query false engineNat = none ∧
    execute_query false engineVol = none ∧
    create_volunteer_res false engineNat = none := by
  cases connOk <;> cases engineNat <;> cases engineVol <;>
    simp [execute_query, create_volunteer_res, get_all_volunteers_res,
      get_volunteer_by_id_res, update_volunteer_phone_res, delete_event_res]

/- ================= Dashboard route (C10) ================= -/

/-- The seven table names `test_database_connection` expects. -/
def expectedTables : List String :=
  ["VOLUNTEER", "ORGANISATION", "SKILL", "EVENT", "VOLUNTEER_EVENT", "VOLUNTEER_SKILL",
   "EVENT_SKILL"]

/-- Embedding of `test_database_connection`: false when no connection,
false when the catalogue query raises, otherwise whether every
expected table name occurs among the actual table names. -/
def test_database_connection (connOk : Bool) (engine : EngineResult (List String)) : Bool :=
  if connOk = false then false
  else
    match engine with
    | .ok tables => expectedTables.all (fun t => tables.contains t)
    | .err _ => false

/-- The rendered dashboard: reachability flag, the three counts, and
the flash messages emitted while handling the request. -/
structure DashboardView where
  db_status : Bool
  volunteer_count : Nat
  organisation_count : Nat
  event_count : Nat
  flashes : List String
deriving Repr, DecidableEq

/-- Model of Python `len(xs) if xs else 0`: both `None` and the empty
list are falsy and give 0. -/
def pyLenIfTruthy {α : Type} (o : Option (List α)) : Nat :=
  match o with
  | none => 0
  | some l => if l.isEmpty then 0 else l.length

/-- Embedding of the `index` route: compute the reachability flag via
`test_database_connection`, then each count via `len(xs) if xs else 0`
over the data-access results; no flash message is emitted on this
route. -/
def index (connOk : Bool) (tablesEngine : EngineResult (List String))
    (volunteers : Option (List VolunteerRow)) (organisations : Option (List OrganisationRow))
    (events : Option (List EventRow)) : DashboardView :=
  { db_status := test_database_connection connOk tablesEngine,
    volunteer_count := pyLenIfTruthy volunteers,
    organisation_count := pyLenIfTruthy organisations,
    event_count := pyLenIfTruthy events,
    flashes := [] }

/-- C10: on the dashboard a storage fault (`None` result) in any of
the three list queries renders exactly like a genuinely empty table —
same view, count 0, no error flash — and only the independently
computed `test_database_connection` flag distinguishes the two. -/
theorem index_fault_renders_as_empty (connOk : Bool) (te : EngineResult (List String))
    (vs : Option (List VolunteerRow)) (os : Option (List OrganisationRow))
    (es : Option (List EventRow)) :
    index connOk te none os es = index connOk te (some []) os es ∧
    index connOk te vs none es = index connOk te vs (some []) es ∧
    index connOk te vs os none = index connOk te vs os (some []) ∧
    (index connOk te none os es).volunteer_count = 0 ∧
    (index connOk te vs none es).organisation_count = 0 ∧
    (index connOk te vs os none).event_count = 0 ∧
    (index connOk te vs os es).flashes = [] ∧
    (index connOk te vs os es).db_status = test_database_connection connOk te := by
  refine ⟨?_, ?_, ?_, rfl, rfl, rfl, rfl, rfl⟩ <;> simp [index, pyLenIfTruthy]

/- ================= Calendar dates (datetime model) ================= -/

/-- A calendar date as `datetime.date` holds it. -/
structure PyDate where
  year : Nat
  month : Nat
  day : Nat
deriving Repr, DecidableEq

/-- Strict `datetime.date` comparison `a < b` (lexicographic on
year, month, day). -/
def PyDate.lt (a b : PyDate) : Bool :=
  decide (a.year < b.year ∨ (a.year = b.year ∧
    (a.month < b.month ∨ (a.month = b.month ∧ a.day < b.day))))

/-- Gregorian leap-year rule used by `datetime`. -/
def isLeapYear (y : Nat) : Bool :=
  y % 4 = 0 && (y % 100 ≠ 0 || y % 400 = 0)

/-- Number of days of a month, as `datetime` validates them. -/
def daysInMonth (y m : Nat) : Nat :=
  if m = 2 then (if isLeapYear y then 29 else 28)
  else if m = 4 ∨ m = 6 ∨ m = 9 ∨ m = 11 then 30
  else 31

/-- Numeric value of a digit string. -/
def digitsVal (l : List Char) : Nat :=
  l.foldl (fun n c => 10 * n + (c.toNat - 48)) 0

/-- Model of `datetime.strptime(s, '%Y-%m-%d')`: exactly three
dash-separated all-digit groups — four digits of year, one or two of
month and day — forming a valid calendar date (year ≥ 1, month 1..12,
day within the month); anything else raises `ValueError`, i.e. `none`. -/
def strptimeYmd (s : String) : Option PyDate :=
  match pySplit '-' s.toList with
  | [ys, ms, ds] =>
    if ys.length = 4 ∧ ys.all Char.isDigit = true ∧
       (ms.length = 1 ∨ ms.length = 2) ∧ ms.all Char.isDigit = true ∧
       (ds.length = 1 ∨ ds.length = 2) ∧ ds.all Char.isDigit = true then
      let y := digitsVal ys
      let m := digitsVal ms
      let d := digitsVal ds
      if 1 ≤ y ∧ 1 ≤ m ∧ m ≤ 12 ∧ 1 ≤ d ∧ d ≤ daysInMonth y m then
        some ⟨y, m, d⟩
      else none
    else none
  | _ => none

/- ================= Create-volunteer handler (C3) ================= -/

/-- The six raw form fields of the create-volunteer POST. -/
structure VolunteerForm where
  first_name : String
  last_name : String
  date_of_birth : String
  email : String
  phone : String
  address : String
deriving Repr, DecidableEq

/-- The handler's `request.form.get(x, '').strip()` over all six
fields. -/
def stripForm (raw : VolunteerForm) : VolunteerForm :=
  { first_name := pyStrip raw.first_name, last_name := pyStrip raw.last_name,
    date_of_birth := pyStrip raw.date_of_birth, email := pyStrip raw.email,
    phone := pyStrip raw.phone, address := pyStrip raw.address }

/-- The validation block of `new_volunteer`: the `errors` list in the
source's append order — presence of the six fields, email and phone
format, then the date-of-birth parse/past check of the `try` block
(`dob.date() >= datetime.now().date()` rejects today and the future). -/
def collectVolunteerErrors (f : VolunteerForm) (today : PyDate) : List String :=
  (if f.first_name = "" then ["First name is required"] else []) ++
  (if f.last_name = "" then ["Last name is required"] else []) ++
  (if f.date_of_birth = "" then ["Date of birth is required"] else []) ++
  (if f.email = "" ∨ validate_email f.email = false then
    ["Valid email address is required"] else []) ++
  (if f.phone = "" ∨ validate_phone f.phone = false then
    ["Valid phone number is required"] else []) ++
  (if f.address = "" then ["Address is required"] else []) ++
  (match strptimeYmd f.date_of_birth with
   | none => ["Invalid date format"]
   | some dob =>
     if PyDate.lt dob today then [] else ["Date of birth must be in the past"])

/-- Response of the create-volunteer POST: a re-rendered form carrying
the entered values and the flashed messages, or a redirect to the
volunteer list. -/
inductive NewVolunteerResult where
  | formView (form : VolunteerForm) (messages : List String)
  | redirectToVolunteers (flash : String)
deriving Repr, DecidableEq

/-- Outcome of the create-volunteer POST, with a ghost flag recording
whether the handler reached the `create_volunteer` storage call. -/
structure NewVolunteerOutcome where
  result : NewVolunteerResult
  createInvoked : Bool
deriving Repr, DecidableEq

/-- Embedding of the POST branch of `new_volunteer`: strip the six
fields, collect every validation message, and only when the list is
empty invoke `create_volunteer` (its `Option Nat` outcome is the
`createResult` argument; a `None` or falsy id re-renders with the
generic storage-error message). -/
def new_volunteer_post (raw : VolunteerForm) (today : PyDate) (createResult : Option Nat) :
    NewVolunteerOutcome :=
  let f := stripForm raw
  let errors := collectVolunteerErrors f today
  if errors ≠ [] then
    { result := .formView f errors, createInvoked := false }
  else
    match createResult with
    | some volunteer_id =>
      if volunteer_id ≠ 0 then
        { result := .redirectToVolunteers
            ("Volunteer " ++ f.first_name ++ " " ++ f.last_name ++ " created successfully!"),
          createInvoked := true }
      else
        { result := .formView f
            ["Error creating volunteer. Please check your input and try again."],
          createInvoked := true }
    | none =>
      { result := .formView f
          ["Error creating volunteer. Please check your input and try again."],
        createInvoked := true }

/- ================= Update-phone handler (C7) ================= -/

/-- HTTP methods the update-phone route accepts. -/
inductive HttpMethod where
  | get
  | post
deriving Repr, DecidableEq

/-- Response of the update-phone route. -/
inductive UpdatePhoneResult where
  | redirectToVolunteers (flash : String) (isError : Bool)
  | formView (volunteer : VolunteerRow) (newPhone : Option String) (flash : Option String)
deriving Repr, DecidableEq

/-- Outcome of the update-phone route: the response, the database
state afterwards, and a ghost flag recording whether the handler
reached the `update_volunteer_phone` storage call. -/
structure UpdatePhoneOutcome where
  result : UpdatePhoneResult
  db : DB
  updateInvoked : Bool
deriving Repr, DecidableEq

/-- Embedding of `UPDATE VOLUNTEER SET phone = ? WHERE volunteer_id = ?`
with its affected-row count. -/
def update_volunteer_phone_rows (db : DB) (volunteer_id : Nat) (new_phone : String) :
    DB × Nat :=
  ({ db with volunteers := db.volunteers.map (fun v =>
      if v.volunteer_id == volunteer_id then { v with phone := new_phone } else v) },
   (db.volunteers.filter (fun v => v.volunteer_id == volunteer_id)).length)

/-- Embedding of `update_volunteer_contact`: first look the volunteer
up; a missing row short-circuits to the not-found redirect before any
mutation, on GET render the form, on POST validate the stripped phone
and only then run the UPDATE statement. -/
def update_volunteer_contact (db : DB) (volunteer_id : Nat) (method : HttpMethod)
    (formPhone : String) : UpdatePhoneOutcome :=
  match get_volunteer_by_id_row db volunteer_id with
  | none =>
    { result := .redirectToVolunteers "Volunteer not found" true, db := db,
      updateInvoked := false }
  | some volunteer =>
    match method with
    | .get => { result := .formView volunteer none none, db := db, updateInvoked := false }
    | .post =>
      let new_phone := pyStrip formPhone
      if new_phone = "" then
        { result := .formView volunteer (some new_phone) (some "Phone number is required"),
          db := db, updateInvoked := false }
      else if validate_phone new_phone = false then
        { result := .formView volunteer (some new_phone)
            (some "Please enter a valid phone number"),
          db := db, updateInvoked := false }
      else
        if 0 < (update_volunteer_phone_rows db volunteer_id new_phone).2 then
          { result := .redirectToVolunteers
              ("Phone number updated successfully for " ++ volunteer.first_name ++ " " ++
                volunteer.last_name) false,
            db := (update_volunteer_phone_rows db volunteer_id new_phone).1,
            updateInvoked := true }
        else
          { result := .formView volunteer (some new_phone)
              (some "Error updating phone number. Please try again."),
            db := (update_volunteer_phone_rows db volunteer_id new_phone).1,
            updateInvoked := true }

/-- C7: when no VOLUNTEER row matches the id, the update-phone route —
GET or POST, whatever the submitted phone — answers with the not-found
redirect to the volunteer list and its error flash, leaves the
database unchanged, and never reaches `update_volunteer_phone`. -/
theorem update_phone_missing_volunteer_no_mutation (db : DB) (volunteer_id : Nat)
    (method : HttpMethod) (formPhone : String)
    (h : ∀ v ∈ db.volunteers, v.volunteer_id ≠ volunteer_id) :
    (update_volunteer_contact db volunteer_id method formPhone).result =
      .redirectToVolunteers "Volunteer not found" true ∧
    (update_volunteer_contact db volunteer_id method formPhone).db = db ∧
    (update_volunteer_contact db volunteer_id method formPhone).updateInvoked = false := by
  have hnone : get_volunteer_by_id_row db volunteer_id = none := by
    rw [get_volunteer_by_id_row, List.head?_eq_none_iff, List.filter_eq_nil_iff]
    intro v hv
    simp [h v hv]
  simp [update_volunteer_contact, hnone]

/-- Database for the C7 witness: one volunteer whose id differs from
the requested one. -/
def updatePhoneWitnessDB : DB :=
  { volunteers := [{ volunteer_id := 1, first_name := "Ada", last_name := "Lovelace",
                     date_of_birth := "1815-12-10", email := "ada@example.com",
                     phone := "0412345678", address := "", registration_date := "" }],
    organisations := [], events := [], volunteer_events := [], skills := [],
    volunteer_skills := [] }

theorem update_phone_missing_volunteer_witness :
    (update_volunteer_contact updatePhoneWitnessDB 99 .post "0499999999").db =
      updatePhoneWitnessDB ∧
    (update_volunteer_contact updatePhoneWitnessDB 99 .post "0499999999").updateInvoked =
      false := by
  have h := update_phone_missing_volunteer_no_mutation updatePhoneWitnessDB 99 .post
    "0499999999" (by decide)
  exact ⟨h.2.1, h.2.2⟩

theorem if_singleton_eq_nil {c : Prop} [Decidable c] {m : String}
    (h : (if c then [m] else []) = []) : ¬ c := by
  intro hc
  rw [if_pos hc] at h
  simp at h

/-- An empty error list certifies that every validation rule of the
create-volunteer handler passed. -/
theorem collectVolunteerErrors_eq_nil {f : VolunteerForm} {today : PyDate}
    (h : collectVolunteerErrors f today = []) :
    f.first_name ≠ "" ∧ f.last_name ≠ "" ∧ f.date_of_birth ≠ "" ∧
    ¬(f.email = "" ∨ validate_email f.email = false) ∧
    ¬(f.phone = "" ∨ validate_phone f.phone = false) ∧ f.address ≠ "" ∧
    ∃ d, strptimeYmd f.date_of_birth = some d ∧ PyDate.lt d today = true := by
  rw [collectVolunteerErrors] at h
  simp only [List.append_eq_nil, and_assoc] at h
  obtain ⟨h1, h2, h3, h4, h5, h6, h7⟩ := h
  refine ⟨if_singleton_eq_nil h1, if_singleton_eq_nil h2, if_singleton_eq_nil h3,
    if_singleton_eq_nil h4, if_singleton_eq_nil h5, if_singleton_eq_nil h6, ?_⟩
  cases hs : strptimeYmd f.date_of_birth with
  | none =>
    rw [hs] at h7
    simp at h7
  | some d =>
    rw [hs] at h7
    by_cases hl : PyDate.lt d today = true
    · exact ⟨d, rfl, hl⟩
    · simp [hl] at h7

/-- C3: whenever a stripped field is missing, the email or phone fails
its format check, or the date of birth fails to parse or is not
strictly before today, the create-volunteer POST never reaches
`create_volunteer`, re-renders the form with the full collected
message list (which is nonempty), and each violated rule's message is
in that list. -/
theorem new_volunteer_invalid_no_insert (raw : VolunteerForm) (today : PyDate)
    (createResult : Option Nat)
    (h : (stripForm raw).first_name = "" ∨ (stripForm raw).last_name = "" ∨
         (stripForm raw).date_of_birth = "" ∨ validate_email (stripForm raw).email = false ∨
         validate_phone (stripForm raw).phone = false ∨ (stripForm raw).address = "" ∨
         strptimeYmd (stripForm raw).date_of_birth = none ∨
         (∃ d, strptimeYmd (stripForm raw).date_of_birth = some d ∧
           PyDate.lt d today = false)) :
    (new_volunteer_post raw today createResult).createInvoked = false ∧
    (new_volunteer_post raw today createResult).result =
      .formView (stripForm raw) (collectVolunteerErrors (stripForm raw) today) ∧
    collectVolunteerErrors (stripForm raw) today ≠ [] ∧
    ((stripForm raw).first_name = "" →
      "First name is required" ∈ collectVolunteerErrors (stripForm raw) today) ∧
    ((stripForm raw).last_name = "" →
      "Last name is required" ∈ collectVolunteerErrors (stripForm raw) today) ∧
    ((stripForm raw).date_of_birth = "" →
      "Date of birth is required" ∈ collectVolunteerErrors (stripForm raw) today) ∧
    (validate_email (stripForm raw).email = false →
      "Valid email address is required" ∈ collectVolunteerErrors (stripForm raw) today) ∧
    (validate_phone (stripForm raw).phone = false →
      "Valid phone number is required" ∈ collectVolunteerErrors (stripForm raw) today) ∧
    ((stripForm raw).address = "" →
      "Address is required" ∈ collectVolunteerErrors (stripForm raw) today) ∧
    (strptimeYmd (stripForm raw).date_of_birth = none →
      "Invalid date format" ∈ collectVolunteerErrors (stripForm raw) today) ∧
    (∀ d, strptimeYmd (stripForm raw).date_of_birth = some d → PyDate.lt d today = false →
      "Date of birth must be in the past" ∈ collectVolunteerErrors (stripForm raw) today) := by
  have hne : collectVolunteerErrors (stripForm raw) today ≠ [] := by
    intro hnil
    obtain ⟨n1, n2, n3, n4, n5, n6, d, hd, hlt⟩ := collectVolunteerErrors_eq_nil hnil
    rcases h with h | h | h | h | h | h | h | ⟨d', hd', hlt'⟩
    · exact n1 h
    · exact n2 h
    · exact n3 h
    · exact n4 (Or.inr h)
    · exact n5 (Or.inr h)
    · exact n6 h
    · rw [h] at hd
      cases hd
    · rw [hd'] at hd
      rw [Option.some.injEq] at hd
      rw [← hd] at hlt
      rw [hlt'] at hlt
      cases hlt
  have hpost : new_volunteer_post raw today createResult =
      { result := .formView (stripForm raw) (collectVolunteerErrors (stripForm raw) today),
        createInvoked := false } := by
    simp only [new_volunteer_post]
    rw [if_pos hne]
  refine ⟨by rw [hpost], by rw [hpost], hne, ?_, ?_, ?_, ?_, ?_, ?_, ?_, ?_⟩
  · intro hc
    simp [collectVolunteerErrors, hc]
  · intro hc
    simp [collectVolunteerErrors, hc]
  · intro hc
    simp [collectVolunteerErrors, hc]
  · intro hc
    simp [collectVolunteerErrors, hc]
  · intro hc
    simp [collectVolunteerErrors, hc]
  · intro hc
    simp [collectVolunteerErrors, hc]
  · intro hc
    simp [collectVolunteerErrors, hc]
  · intro d hd hlt
    simp [collectVolunteerErrors, hd, hlt]

/-- Form for the C3 witness: everything valid except the email. -/
def newVolunteerWitnessForm : VolunteerForm :=
  { first_name := "Ada", last_name := "Lovelace", date_of_birth := "1815-12-10",
    email := "not-an-email", phone := "0412 345 678", address := "1 Example St" }

theorem new_volunteer_invalid_witness :
    (new_volunteer_post newVolunteerWitnessForm ⟨2025, 10, 12⟩ (some 1)).createInvoked =
      false ∧
    "Valid email address is required" ∈
      collectVolunteerErrors (stripForm newVolunteerWitnessForm) ⟨2025, 10, 12⟩ := by
  have h := new_volunteer_invalid_no_insert newVolunteerWitnessForm ⟨2025, 10, 12⟩ (some 1)
    (by decide)
  exact ⟨h.1, h.2.2.2.2.2.2.1 (by decide)⟩

end CommunityConnect
